import Mathlib

/-!
Shallow embedding of `BM11Model` (src/BM11Model/main.cpp) over the reals,
together with proofs of the specification claims.

The C++ program computes, from a small set of scalar inputs, the geometry of a
twin-tetrahedron structure, validates it with a 3D law-of-sines cross-check,
and derives frame/mirror/wind/cost figures.  Single-precision floats are
modelled as real numbers; the fallible evaluation returns an explicit error
flag, exactly as the C `evaluate` member returns `bool` (true on validation
failure).  Division by zero follows Lean's `x / 0 = 0` convention where the C
code would produce NaN; the spots where this matters are discussed at the
corresponding theorems.
-/

namespace BM11Model

/-- two-component vector, mirrors `GLKVector2`. -/
structure GLKVector2 where
  x : ℝ
  y : ℝ

/-- three-component vector, mirrors `GLKVector3`. -/
structure GLKVector3 where
  x : ℝ
  y : ℝ
  z : ℝ

noncomputable def GLKVector2Make (x y : ℝ) : GLKVector2 := ⟨x, y⟩

noncomputable def GLKVector3Make (x y z : ℝ) : GLKVector3 := ⟨x, y, z⟩

noncomputable def GLKVector3Subtract (a b : GLKVector3) : GLKVector3 :=
  ⟨a.x - b.x, a.y - b.y, a.z - b.z⟩

noncomputable def GLKVector3Multiply (a b : GLKVector3) : GLKVector3 :=
  ⟨a.x * b.x, a.y * b.y, a.z * b.z⟩

noncomputable def GLKVector3CrossProduct (a b : GLKVector3) : GLKVector3 :=
  ⟨a.y * b.z - a.z * b.y, a.z * b.x - a.x * b.z, a.x * b.y - a.y * b.x⟩

noncomputable def GLKVector3DotProduct (a b : GLKVector3) : ℝ :=
  a.x * b.x + a.y * b.y + a.z * b.z

noncomputable def GLKVector3Length (a : GLKVector3) : ℝ :=
  Real.sqrt (a.x * a.x + a.y * a.y + a.z * a.z)

noncomputable def GLKVector3Normalize (a : GLKVector3) : GLKVector3 :=
  ⟨a.x / GLKVector3Length a, a.y / GLKVector3Length a, a.z / GLKVector3Length a⟩

noncomputable def GLKMathDegreesToRadians (d : ℝ) : ℝ := d * (Real.pi / 180)

/-- `float sq(float x) { return (x * x); }` -/
noncomputable def sq (x : ℝ) : ℝ := x * x

/-- `float MPH_To_FTSec(float mph) { return mph * 1.46667f; }` -/
noncomputable def MPH_To_FTSec (mph : ℝ) : ℝ := mph * 1.46667

/-- nested `unit_cost` record of `InputParameters`. -/
structure UnitCost where
  frameMetal : ℝ
  mirror : ℝ
  mirrorBolt : ℝ
  frameThroughHoleDrill : ℝ
  frameThroughHoleTap : ℝ

/-- `BM11Model::InputParameters`. -/
structure InputParameters where
  squareSideLength : ℝ
  baseCutBackLength : ℝ
  angle_ABC : ℝ
  frameCrossSection : GLKVector2
  frameWallThickness : ℝ
  metalDensity : ℝ
  shoulderHeight : ℝ
  mirrorBoltSpacing : ℝ
  unit_cost : UnitCost

/-- `edge_length` group of `OutputParameters`. -/
structure EdgeLength where
  OB : ℝ
  BA : ℝ
  OA : ℝ
  AC : ℝ

/-- `vertex_angle` group of `OutputParameters`. -/
structure VertexAngle where
  angle_OAB : ℝ
  angle_AOB : ℝ
  angle_ABO : ℝ
  angle_OCB : ℝ
  angle_COB : ℝ
  angle_CBO : ℝ
  angle_ABC : ℝ
  angle_BAC : ℝ
  angle_BCA : ℝ
  angle_AOC : ℝ
  angle_OAC : ℝ
  angle_OCA : ℝ

/-- `vertex_coord` group of `OutputParameters`. -/
structure VertexCoord where
  A0 : GLKVector3
  C0 : GLKVector3
  B0 : GLKVector3
  O : GLKVector3
  A1 : GLKVector3
  B1 : GLKVector3
  C1 : GLKVector3

/-- `overall_structure` group of `OutputParameters`
(`footprint_aspect` embeds the aspect-ratio field). -/
structure OverallStructure where
  footprint : GLKVector2
  footprint_area : ℝ
  footprint_aspect : ℝ
  height : ℝ
  triangle_area : ℝ
  walkway_top_angle : ℝ
  walkway_base_width : ℝ
  walkway_shoulder_width : ℝ

/-- `dihedral_angle` group of `OutputParameters`. -/
structure DihedralAngle where
  angle_BOA_BOC : ℝ
  angle_BOA_ABC : ℝ

/-- `frame` group of `OutputParameters`. -/
structure Frame where
  perimeter_length : ℝ
  reinforce_length : ℝ
  total_length : ℝ
  metal_volume : ℝ
  metal_mass : ℝ
  metal_cost : ℝ
  drill_count : ℝ
  drill_cost : ℝ
  tap_count : ℝ
  tap_cost : ℝ

/-- `mirror` group of `OutputParameters`. -/
structure MirrorInfo where
  surface_area : ℝ
  cost : ℝ
  bolt_count : ℝ
  bolt_cost : ℝ

/-- `wind` group of `OutputParameters`. -/
structure Wind where
  total_surface_area_XY : ℝ
  total_surface_area_YZ : ℝ

/-- `total` group of `OutputParameters`. -/
structure Total where
  mass : ℝ
  cost : ℝ

/-- `BM11Model::OutputParameters`. -/
structure OutputParameters where
  edge_length : EdgeLength
  vertex_angle : VertexAngle
  vertex_coord : VertexCoord
  overall_structure : OverallStructure
  dihedral_angle : DihedralAngle
  frame : Frame
  mirror : MirrorInfo
  wind : Wind
  total : Total

/-- the all-zero output, the state of `_outputParams` right after
`memset(op, 0, sizeof(*op))` at the start of `evaluate`. -/
noncomputable def OutputParameters.zero : OutputParameters where
  edge_length := ⟨0, 0, 0, 0⟩
  vertex_angle := ⟨0, 0, 0, 0, 0, 0, 0, 0, 0, 0, 0, 0⟩
  vertex_coord := ⟨⟨0,0,0⟩, ⟨0,0,0⟩, ⟨0,0,0⟩, ⟨0,0,0⟩, ⟨0,0,0⟩, ⟨0,0,0⟩, ⟨0,0,0⟩⟩
  overall_structure := ⟨⟨0,0⟩, 0, 0, 0, 0, 0, 0, 0⟩
  dihedral_angle := ⟨0, 0⟩
  frame := ⟨0, 0, 0, 0, 0, 0, 0, 0, 0, 0⟩
  mirror := ⟨0, 0, 0, 0⟩
  wind := ⟨0, 0⟩
  total := ⟨0, 0⟩

/-- `BM11Model::getDefaultInputParameters`. -/
noncomputable def getDefaultInputParameters : InputParameters where
  squareSideLength := 16
  baseCutBackLength := 2
  angle_ABC := GLKMathDegreesToRadians 110
  frameCrossSection := GLKVector2Make 0.75 1.5
  frameWallThickness := 1 / 16
  metalDensity := 0.289
  shoulderHeight := 5
  mirrorBoltSpacing := 2
  unit_cost :=
    { frameMetal := 4.4
      mirror := 220 / (8 * 4)
      mirrorBolt := 3.67 / 10
      frameThroughHoleDrill := 695 / 160
      frameThroughHoleTap := 480 / 320 }

/-! ### The quantities computed by `BM11Model::evaluate`, in program order. -/

noncomputable def edge_OB (p : InputParameters) : ℝ :=
  Real.sqrt (p.squareSideLength * p.squareSideLength +
    p.baseCutBackLength * p.baseCutBackLength)

noncomputable def edge_BA (p : InputParameters) : ℝ :=
  p.squareSideLength - p.baseCutBackLength

noncomputable def edge_OA (p : InputParameters) : ℝ :=
  Real.sqrt (2 * p.squareSideLength * p.squareSideLength)

noncomputable def edge_AC (p : InputParameters) : ℝ :=
  2 * edge_BA p * Real.sin (p.angle_ABC * 0.5)

noncomputable def angle_OAB (p : InputParameters) : ℝ :=
  Real.arccos ((sq (edge_OA p) + sq (edge_BA p) - sq (edge_OB p)) /
    (2 * edge_OA p * edge_BA p))

noncomputable def angle_AOB (p : InputParameters) : ℝ :=
  Real.arccos ((sq (edge_OA p) + sq (edge_OB p) - sq (edge_BA p)) /
    (2 * edge_OA p * edge_OB p))

noncomputable def angle_ABO (p : InputParameters) : ℝ :=
  Real.pi - angle_OAB p - angle_AOB p

noncomputable def angle_OCB (p : InputParameters) : ℝ := angle_OAB p

noncomputable def angle_COB (p : InputParameters) : ℝ := angle_AOB p

noncomputable def angle_CBO (p : InputParameters) : ℝ := angle_ABO p

noncomputable def angle_ABC (p : InputParameters) : ℝ := p.angle_ABC

noncomputable def angle_BAC (p : InputParameters) : ℝ :=
  (Real.pi - angle_ABC p) * 0.5

noncomputable def angle_BCA (p : InputParameters) : ℝ := angle_BAC p

noncomputable def angle_AOC (p : InputParameters) : ℝ :=
  2 * Real.arcsin (edge_AC p / (2 * edge_OA p))

noncomputable def angle_OAC (p : InputParameters) : ℝ :=
  (Real.pi - angle_AOC p) * 0.5

noncomputable def angle_OCA (p : InputParameters) : ℝ := angle_OAC p

/-- tolerance of the law-of-sines validation: `float epsilon = (1.0f / 1000.0f)`. -/
noncomputable def epsilon : ℝ := 1 / 1000

/-- face `O,ABC` law-of-sines product, left side. -/
noncomputable def lsc1_lhs (p : InputParameters) : ℝ :=
  Real.sin (angle_OAC p) * Real.sin (angle_OCB p) * Real.sin (angle_ABO p)

/-- face `O,ABC` law-of-sines product, right side. -/
noncomputable def lsc1_rhs (p : InputParameters) : ℝ :=
  Real.sin (angle_OCA p) * Real.sin (angle_CBO p) * Real.sin (angle_OAB p)

/-- face `A,OBC` law-of-sines product, left side. -/
noncomputable def lsc2_lhs (p : InputParameters) : ℝ :=
  Real.sin (angle_AOC p) * Real.sin (angle_BCA p) * Real.sin (angle_ABO p)

/-- face `A,OBC` law-of-sines product, right side. -/
noncomputable def lsc2_rhs (p : InputParameters) : ℝ :=
  Real.sin (angle_OCA p) * Real.sin (angle_ABC p) * Real.sin (angle_AOB p)

/-- face `B,AOC` law-of-sines product, left side. -/
noncomputable def lsc3_lhs (p : InputParameters) : ℝ :=
  Real.sin (angle_BAC p) * Real.sin (angle_OCB p) * Real.sin (angle_AOB p)

/-- face `B,AOC` law-of-sines product, right side. -/
noncomputable def lsc3_rhs (p : InputParameters) : ℝ :=
  Real.sin (angle_BCA p) * Real.sin (angle_COB p) * Real.sin (angle_OAB p)

/-- face `C,ABO` law-of-sines product, left side. -/
noncomputable def lsc4_lhs (p : InputParameters) : ℝ :=
  Real.sin (angle_OAC p) * Real.sin (angle_COB p) * Real.sin (angle_ABC p)

/-- face `C,ABO` law-of-sines product, right side. -/
noncomputable def lsc4_rhs (p : InputParameters) : ℝ :=
  Real.sin (angle_AOC p) * Real.sin (angle_CBO p) * Real.sin (angle_BAC p)

noncomputable def length_AM (p : InputParameters) : ℝ := edge_AC p * 0.5

noncomputable def coord_A0 (p : InputParameters) : GLKVector3 :=
  GLKVector3Make (-length_AM p) 0 0

noncomputable def coord_C0 (p : InputParameters) : GLKVector3 :=
  GLKVector3Make (length_AM p) 0 0

noncomputable def coord_B0 (p : InputParameters) : GLKVector3 :=
  GLKVector3Make 0 0 (Real.sqrt (sq (edge_BA p) - sq (length_AM p)))

noncomputable def coord_O_z (p : InputParameters) : ℝ :=
  (sq (edge_OB p) - sq (edge_OA p) + sq (length_AM p) - sq (coord_B0 p).z) /
    (-2 * (coord_B0 p).z)

noncomputable def coord_O_y (p : InputParameters) : ℝ :=
  Real.sqrt (sq (edge_OA p) - sq (length_AM p) - sq (coord_O_z p))

/-- the coordinates after the translation putting `O.z` at 0. -/
noncomputable def coord_A0t (p : InputParameters) : GLKVector3 :=
  { coord_A0 p with z := (coord_A0 p).z - coord_O_z p }

noncomputable def coord_B0t (p : InputParameters) : GLKVector3 :=
  { coord_B0 p with z := (coord_B0 p).z - coord_O_z p }

noncomputable def coord_C0t (p : InputParameters) : GLKVector3 :=
  { coord_C0 p with z := (coord_C0 p).z - coord_O_z p }

noncomputable def coord_Ot (p : InputParameters) : GLKVector3 :=
  GLKVector3Make 0 (coord_O_y p) 0

noncomputable def coord_A1 (p : InputParameters) : GLKVector3 :=
  GLKVector3Multiply (coord_A0t p) (GLKVector3Make 1 1 (-1))

noncomputable def coord_B1 (p : InputParameters) : GLKVector3 :=
  GLKVector3Multiply (coord_B0t p) (GLKVector3Make 1 1 (-1))

noncomputable def coord_C1 (p : InputParameters) : GLKVector3 :=
  GLKVector3Multiply (coord_C0t p) (GLKVector3Make 1 1 (-1))

noncomputable def footprint (p : InputParameters) : GLKVector2 :=
  GLKVector2Make ((coord_C0t p).x - (coord_A0t p).x) ((coord_A1 p).z - (coord_A0t p).z)

noncomputable def footprint_area (p : InputParameters) : ℝ :=
  (footprint p).x * (footprint p).y

noncomputable def footprint_aspect (p : InputParameters) : ℝ :=
  (footprint p).x / (footprint p).y

noncomputable def height (p : InputParameters) : ℝ := (coord_Ot p).y

noncomputable def triangle_area (p : InputParameters) : ℝ :=
  GLKVector3Length (GLKVector3CrossProduct
    (GLKVector3Subtract (coord_Ot p) (coord_B0t p))
    (GLKVector3Subtract (coord_A0t p) (coord_B0t p))) * 0.5

noncomputable def walkway_top_angle (p : InputParameters) : ℝ :=
  Real.arctan ((coord_B1 p).z / (coord_Ot p).y) * 2

noncomputable def walkway_base_width (p : InputParameters) : ℝ :=
  (coord_B1 p).z - (coord_B0t p).z

noncomputable def walkway_shoulder_width (p : InputParameters) : ℝ :=
  (((coord_Ot p).y - p.shoulderHeight) * (coord_B1 p).z * 2) / (coord_Ot p).y

noncomputable def vec_BO (p : InputParameters) : GLKVector3 :=
  GLKVector3Subtract (coord_B0t p) (coord_Ot p)

noncomputable def vec_BA (p : InputParameters) : GLKVector3 :=
  GLKVector3Subtract (coord_B0t p) (coord_A0t p)

noncomputable def vec_BC (p : InputParameters) : GLKVector3 :=
  GLKVector3Subtract (coord_B0t p) (coord_C0t p)

noncomputable def norm_BOA (p : InputParameters) : GLKVector3 :=
  GLKVector3Normalize (GLKVector3CrossProduct (vec_BO p) (vec_BA p))

noncomputable def norm_BOC (p : InputParameters) : GLKVector3 :=
  GLKVector3Normalize (GLKVector3CrossProduct (vec_BO p) (vec_BC p))

noncomputable def norm_ABC : GLKVector3 := GLKVector3Make 0 1 0

noncomputable def angle_BOA_BOC (p : InputParameters) : ℝ :=
  Real.arccos (GLKVector3DotProduct (norm_BOA p) (norm_BOC p))

noncomputable def angle_BOA_ABC (p : InputParameters) : ℝ :=
  Real.arccos (GLKVector3DotProduct (norm_BOA p) norm_ABC)

noncomputable def perimeter_length (p : InputParameters) : ℝ :=
  edge_BA p * 4 + edge_OA p * 4 + edge_OB p * 4

noncomputable def reinforce_length (p : InputParameters) : ℝ :=
  edge_BA p * 1.6 * 4 + walkway_base_width p

noncomputable def total_length (p : InputParameters) : ℝ :=
  perimeter_length p + reinforce_length p

noncomputable def xsection_area (p : InputParameters) : ℝ :=
  p.frameCrossSection.x * p.frameCrossSection.y

noncomputable def xsection_inner_dim (p : InputParameters) : GLKVector2 :=
  GLKVector2Make (p.frameCrossSection.x - p.frameWallThickness * 2)
    (p.frameCrossSection.y - p.frameWallThickness * 2)

noncomputable def xsection_inner_area (p : InputParameters) : ℝ :=
  (xsection_inner_dim p).x * (xsection_inner_dim p).y

noncomputable def xsection_metal_area (p : InputParameters) : ℝ :=
  xsection_area p - xsection_inner_area p

noncomputable def metal_volume (p : InputParameters) : ℝ :=
  xsection_metal_area p * (total_length p * 12)

noncomputable def metal_mass (p : InputParameters) : ℝ :=
  metal_volume p * p.metalDensity

noncomputable def metal_cost (p : InputParameters) : ℝ :=
  total_length p * p.unit_cost.frameMetal

noncomputable def drill_count (p : InputParameters) : ℝ :=
  total_length p / p.mirrorBoltSpacing

noncomputable def drill_cost (p : InputParameters) : ℝ :=
  drill_count p * p.unit_cost.frameThroughHoleDrill

noncomputable def tap_count (p : InputParameters) : ℝ := drill_count p * 2

noncomputable def tap_cost (p : InputParameters) : ℝ :=
  tap_count p * p.unit_cost.frameThroughHoleTap

noncomputable def mirror_surface_area (p : InputParameters) : ℝ :=
  triangle_area p * 8

noncomputable def mirror_cost (p : InputParameters) : ℝ :=
  mirror_surface_area p * p.unit_cost.mirror

noncomputable def mirror_bolt_count (p : InputParameters) : ℝ := tap_count p

noncomputable def mirror_bolt_cost (p : InputParameters) : ℝ :=
  mirror_bolt_count p * p.unit_cost.mirrorBolt

noncomputable def proj_XY (v : GLKVector3) : GLKVector3 :=
  GLKVector3Multiply v (GLKVector3Make 1 1 0)

noncomputable def proj_YZ (v : GLKVector3) : GLKVector3 :=
  GLKVector3Multiply v (GLKVector3Make 0 1 1)

noncomputable def triangle_surface_area_XY (p : InputParameters) : ℝ :=
  GLKVector3Length (GLKVector3CrossProduct
    (GLKVector3Subtract (proj_XY (coord_B0t p)) (proj_XY (coord_A0t p)))
    (GLKVector3Subtract (proj_XY (coord_B0t p)) (proj_XY (coord_Ot p)))) * 0.5

noncomputable def total_surface_area_XY (p : InputParameters) : ℝ :=
  triangle_surface_area_XY p * 2

noncomputable def triangle_surface_area_YZ (p : InputParameters) : ℝ :=
  GLKVector3Length (GLKVector3CrossProduct
    (GLKVector3Subtract (proj_YZ (coord_B0t p)) (proj_YZ (coord_A0t p)))
    (GLKVector3Subtract (proj_YZ (coord_B0t p)) (proj_YZ (coord_Ot p)))) * 0.5

noncomputable def total_surface_area_YZ (p : InputParameters) : ℝ :=
  triangle_surface_area_YZ p * 2

noncomputable def total_mass (p : InputParameters) : ℝ := metal_mass p

noncomputable def total_cost (p : InputParameters) : ℝ :=
  metal_cost p + drill_cost p + tap_cost p + mirror_cost p + mirror_bolt_cost p

/-- the output as it stands when a law-of-sines check fails: only the edge
lengths and vertex angles have been written over the zeroed struct. -/
noncomputable def partialOutput (p : InputParameters) : OutputParameters :=
  { OutputParameters.zero with
    edge_length := ⟨edge_OB p, edge_BA p, edge_OA p, edge_AC p⟩
    vertex_angle :=
      ⟨angle_OAB p, angle_AOB p, angle_ABO p, angle_OCB p, angle_COB p,
       angle_CBO p, angle_ABC p, angle_BAC p, angle_BCA p, angle_AOC p,
       angle_OAC p, angle_OCA p⟩ }

/-- the fully populated output of a successful `evaluate`. -/
noncomputable def fullOutput (p : InputParameters) : OutputParameters :=
  { partialOutput p with
    vertex_coord :=
      ⟨coord_A0t p, coord_C0t p, coord_B0t p, coord_Ot p, coord_A1 p,
       coord_B1 p, coord_C1 p⟩
    overall_structure :=
      ⟨footprint p, footprint_area p, footprint_aspect p, height p,
       triangle_area p, walkway_top_angle p, walkway_base_width p,
       walkway_shoulder_width p⟩
    dihedral_angle := ⟨angle_BOA_BOC p, angle_BOA_ABC p⟩
    frame :=
      ⟨perimeter_length p, reinforce_length p, total_length p, metal_volume p,
       metal_mass p, metal_cost p, drill_count p, drill_cost p, tap_count p,
       tap_cost p⟩
    mirror :=
      ⟨mirror_surface_area p, mirror_cost p, mirror_bolt_count p,
       mirror_bolt_cost p⟩
    wind := ⟨total_surface_area_XY p, total_surface_area_YZ p⟩
    total := ⟨total_mass p, total_cost p⟩ }

open Classical in
/-- `bool BM11Model::evaluate(void)`: the boolean is the returned error flag
(`true` when a law-of-sines check exceeds `epsilon`, in which case only the
partially written output is left behind), the second component is the state of
`_outputParams` when the function returns. -/
noncomputable def evaluate (p : InputParameters) : Bool × OutputParameters :=
  if |lsc1_lhs p - lsc1_rhs p| > epsilon then (true, partialOutput p)
  else if |lsc2_lhs p - lsc2_rhs p| > epsilon then (true, partialOutput p)
  else if |lsc3_lhs p - lsc3_rhs p| > epsilon then (true, partialOutput p)
  else if |lsc4_lhs p - lsc4_rhs p| > epsilon then (true, partialOutput p)
  else (false, fullOutput p)

/-- the mutable state of a `BM11Model` object:
`_inputParams`, `_outputParams`, `_is_dirty`. -/
structure ModelState where
  inputParams : InputParameters
  outputParams : OutputParameters
  is_dirty : Bool

/-- `setInputParameters`: stores the inputs and marks the cache dirty. -/
noncomputable def setInputParameters (st : ModelState) (params : InputParameters) :
    ModelState :=
  { st with inputParams := params, is_dirty := true }

/-- `getOutputParameters`: on a dirty state it runs `evaluate` — discarding the
returned error flag, exactly as the C code does — stores the produced output,
clears the dirty flag, and returns the stored output. -/
noncomputable def getOutputParameters (st : ModelState) : OutputParameters × ModelState :=
  if st.is_dirty then
    let op := (evaluate st.inputParams).2
    (op, { st with outputParams := op, is_dirty := false })
  else
    (st.outputParams, st)

/-- the wind-force formula printed by `printOutputParameters`:
`pressure = sq(MPH_To_FTSec(mph)) * 0.00256`. -/
noncomputable def wind_pressure (mph : ℝ) : ℝ := sq (MPH_To_FTSec mph) * 0.00256

/-- `float coeff_drag = 1.0f`. -/
noncomputable def coeff_drag : ℝ := 1.0

/-- `force = area * pressure * coeff_drag` for a projected area. -/
noncomputable def windForce (area mph : ℝ) : ℝ :=
  area * wind_pressure mph * coeff_drag

/-- the law-of-sines validation fails: some of the four face checks exceeds
the tolerance, which is exactly the condition under which `evaluate` takes an
early-return branch. -/
def lawOfSinesFails (p : InputParameters) : Prop :=
  epsilon < |lsc1_lhs p - lsc1_rhs p| ∨ epsilon < |lsc2_lhs p - lsc2_rhs p| ∨
    epsilon < |lsc3_lhs p - lsc3_rhs p| ∨ epsilon < |lsc4_lhs p - lsc4_rhs p|

/-- the spec's input-domain constraints relevant to the geometry: a positive
cut-back strictly smaller than the square side (so `BA > 0`), and a ground
angle strictly between 0 and π. -/
def ValidDomain (p : InputParameters) : Prop :=
  0 < p.baseCutBackLength ∧ p.baseCutBackLength < p.squareSideLength ∧
    0 < p.angle_ABC ∧ p.angle_ABC < Real.pi

/-- a concrete input whose derived angle set genuinely violates the 3D law of
sines: the cut-back exceeds the square side, and the ground angle is a right
angle (chosen to keep the arithmetic exact). -/
noncomputable def invalidTetraInput : InputParameters :=
  { getDefaultInputParameters with
    baseCutBackLength := 17
    angle_ABC := Real.pi / 2 }

/-- the degenerate input named by the spec: `baseCutBackLength` equal to
`squareSideLength`, forcing `BA = 0` (a division by zero in the C code). -/
noncomputable def degenerateInput : InputParameters :=
  { getDefaultInputParameters with baseCutBackLength := 16 }

/-- the inputs used by `main`'s sweep mode: defaults with `squareSideLength`
replaced. -/
noncomputable def sweepInput (s : ℝ) : InputParameters :=
  { getDefaultInputParameters with squareSideLength := s }

/-- `total.cost` of the output produced for a sweep input. -/
noncomputable def sweepCost (s : ℝ) : ℝ :=
  ((evaluate (sweepInput s)).2).total.cost

/-- the angle at B of triangle O-B-A as the spec describes it: the cosine-law
angle opposite side `OA`, `acos((BA² + OB² − OA²) / (2·BA·OB))`.  The code
instead derives this angle as π minus the two other angles; claim C9 states
the two agree. -/
noncomputable def angle_ABO_cosineLaw (p : InputParameters) : ℝ :=
  Real.arccos ((sq (edge_BA p) + sq (edge_OB p) - sq (edge_OA p)) /
    (2 * edge_BA p * edge_OB p))

end BM11Model

namespace BM11Model

/-! ### Shared helper lemmas -/

/-- the edge-length group is written before the validation gate, so it is the
same whether or not `evaluate` fails. -/
lemma evaluate_snd_edge_length (p : InputParameters) :
    ((evaluate p).2).edge_length =
      ⟨edge_OB p, edge_BA p, edge_OA p, edge_AC p⟩ := by
  unfold evaluate
  split_ifs <;> simp [partialOutput, fullOutput]

/-- when the returned error flag is false, the output is the fully populated
record. -/
lemma evaluate_fst_false_snd (p : InputParameters) (h : (evaluate p).1 = false) :
    (evaluate p).2 = fullOutput p := by
  unfold evaluate at h ⊢
  split_ifs at h ⊢
  simp_all

/-- when the returned error flag is true, the output is the partial record. -/
lemma evaluate_fst_true_snd (p : InputParameters) (h : (evaluate p).1 = true) :
    (evaluate p).2 = partialOutput p := by
  unfold evaluate at h ⊢
  split_ifs at h ⊢ <;> simp_all

/-- Claim C7: the wind force `force(mph) = (mph × 1.46667)² × 0.00256 × area × 1.0`
is 0 at 0 mph and scales with the square of the speed, so
`force(2v) = 4 × force(v)` for every speed `v` and fixed plane/area. -/
theorem claim_C7 (area v : ℝ) :
    windForce area v = sq (v * 1.46667) * 0.00256 * area * 1.0 ∧
      windForce area 0 = 0 ∧
      windForce area (2 * v) = 4 * windForce area v := by
  unfold windForce wind_pressure coeff_drag MPH_To_FTSec sq
  exact ⟨by ring, by ring, by ring⟩

lemma sqrt_two_mul_self : Real.sqrt 2 * Real.sqrt 2 = 2 :=
  Real.mul_self_sqrt (by norm_num)

lemma sqrt_two_pos : (0 : ℝ) < Real.sqrt 2 := Real.sqrt_pos.2 (by norm_num)

lemma arccos_sqrt_two_div_two : Real.arccos (Real.sqrt 2 / 2) = Real.pi / 4 := by
  rw [← Real.cos_pi_div_four]
  exact Real.arccos_cos (by positivity) (by linarith [Real.pi_pos])

section ValidGeometry

variable {p : InputParameters}

lemma vd_s_pos (h : ValidDomain p) : 0 < p.squareSideLength :=
  lt_trans h.1 h.2.1

lemma edge_BA_pos (h : ValidDomain p) : 0 < edge_BA p := by
  unfold edge_BA; linarith [h.2.1]

lemma sq_edge_OB (p : InputParameters) :
    sq (edge_OB p) = p.squareSideLength * p.squareSideLength +
      p.baseCutBackLength * p.baseCutBackLength := by
  unfold sq edge_OB
  exact Real.mul_self_sqrt
    (add_nonneg (mul_self_nonneg _) (mul_self_nonneg _))

lemma sq_edge_OA (p : InputParameters) :
    sq (edge_OA p) = 2 * p.squareSideLength * p.squareSideLength := by
  unfold sq edge_OA
  exact Real.mul_self_sqrt (by nlinarith [mul_self_nonneg p.squareSideLength])

lemma edge_OB_pos (h : ValidDomain p) : 0 < edge_OB p := by
  unfold edge_OB
  exact Real.sqrt_pos.2
    (by nlinarith [vd_s_pos h, mul_self_nonneg p.baseCutBackLength])

lemma edge_OA_eq {p : InputParameters} (hs : 0 ≤ p.squareSideLength) :
    edge_OA p = p.squareSideLength * Real.sqrt 2 := by
  unfold edge_OA
  rw [show 2 * p.squareSideLength * p.squareSideLength =
        p.squareSideLength * Real.sqrt 2 * (p.squareSideLength * Real.sqrt 2) by
      linear_combination
        (-(p.squareSideLength * p.squareSideLength)) * sqrt_two_mul_self]
  exact Real.sqrt_mul_self (mul_nonneg hs (Real.sqrt_nonneg 2))

lemma angle_OAB_eq (h : ValidDomain p) : angle_OAB p = Real.pi / 4 := by
  have hc := h.1
  have hcs := h.2.1
  have hs : 0 < p.squareSideLength := vd_s_pos h
  have hden : (0 : ℝ) <
      2 * (p.squareSideLength * Real.sqrt 2) *
        (p.squareSideLength - p.baseCutBackLength) :=
    mul_pos (mul_pos two_pos (mul_pos hs sqrt_two_pos)) (by linarith)
  have harg : (sq (edge_OA p) + sq (edge_BA p) - sq (edge_OB p)) /
      (2 * edge_OA p * edge_BA p) = Real.sqrt 2 / 2 := by
    rw [sq_edge_OA, sq_edge_OB, edge_OA_eq hs.le]
    unfold sq edge_BA
    rw [div_eq_div_iff hden.ne' (by norm_num)]
    linear_combination
      (-(2 * p.squareSideLength * (p.squareSideLength - p.baseCutBackLength))) *
        sqrt_two_mul_self
  unfold angle_OAB
  rw [harg, arccos_sqrt_two_div_two]

lemma angle_AOB_arg (h : ValidDomain p) :
    (sq (edge_OA p) + sq (edge_OB p) - sq (edge_BA p)) /
        (2 * edge_OA p * edge_OB p) =
      (p.squareSideLength + p.baseCutBackLength) / (Real.sqrt 2 * edge_OB p) := by
  have hs : 0 < p.squareSideLength := vd_s_pos h
  have hOB : 0 < edge_OB p := edge_OB_pos h
  rw [sq_edge_OA, sq_edge_OB, edge_OA_eq hs.le]
  unfold sq edge_BA
  rw [div_eq_div_iff
    (mul_pos (mul_pos two_pos (mul_pos hs sqrt_two_pos)) hOB).ne'
    (mul_pos sqrt_two_pos hOB).ne']
  ring

lemma angle_AOB_arg_nonneg (h : ValidDomain p) :
    0 ≤ (p.squareSideLength + p.baseCutBackLength) / (Real.sqrt 2 * edge_OB p) :=
  div_nonneg (by linarith [vd_s_pos h, h.1])
    (mul_nonneg sqrt_two_pos.le (edge_OB_pos h).le)

lemma angle_AOB_arg_le_one (h : ValidDomain p) :
    (p.squareSideLength + p.baseCutBackLength) / (Real.sqrt 2 * edge_OB p) ≤ 1 := by
  have hs : 0 < p.squareSideLength := vd_s_pos h
  have hOB : 0 < edge_OB p := edge_OB_pos h
  rw [div_le_one (mul_pos sqrt_two_pos hOB)]
  have step : p.squareSideLength + p.baseCutBackLength ≤
      Real.sqrt (2 * (p.squareSideLength * p.squareSideLength +
        p.baseCutBackLength * p.baseCutBackLength)) := by
    rw [show p.squareSideLength + p.baseCutBackLength =
        Real.sqrt ((p.squareSideLength + p.baseCutBackLength) *
          (p.squareSideLength + p.baseCutBackLength)) from
      (Real.sqrt_mul_self (by linarith [h.1])).symm]
    exact Real.sqrt_le_sqrt
      (by nlinarith [sq_nonneg (p.squareSideLength - p.baseCutBackLength)])
  calc p.squareSideLength + p.baseCutBackLength ≤
      Real.sqrt (2 * (p.squareSideLength * p.squareSideLength +
        p.baseCutBackLength * p.baseCutBackLength)) := step
    _ = Real.sqrt 2 * edge_OB p := by
        unfold edge_OB
        exact Real.sqrt_mul (by norm_num) _

lemma cos_angle_AOB (h : ValidDomain p) :
    Real.cos (angle_AOB p) =
      (p.squareSideLength + p.baseCutBackLength) / (Real.sqrt 2 * edge_OB p) := by
  unfold angle_AOB
  rw [angle_AOB_arg h]
  exact Real.cos_arccos (le_trans (by norm_num) (angle_AOB_arg_nonneg h))
    (angle_AOB_arg_le_one h)

lemma sin_angle_AOB (h : ValidDomain p) :
    Real.sin (angle_AOB p) =
      (p.squareSideLength - p.baseCutBackLength) / (Real.sqrt 2 * edge_OB p) := by
  have hs : 0 < p.squareSideLength := vd_s_pos h
  have hOB : 0 < edge_OB p := edge_OB_pos h
  have hOB2 : edge_OB p * edge_OB p = p.squareSideLength * p.squareSideLength +
      p.baseCutBackLength * p.baseCutBackLength := by
    unfold edge_OB
    exact Real.mul_self_sqrt (add_nonneg (mul_self_nonneg _) (mul_self_nonneg _))
  unfold angle_AOB
  rw [angle_AOB_arg h, Real.sin_arccos]
  have h1v : 1 - ((p.squareSideLength + p.baseCutBackLength) /
        (Real.sqrt 2 * edge_OB p)) ^ 2 =
      ((p.squareSideLength - p.baseCutBackLength) /
        (Real.sqrt 2 * edge_OB p)) ^ 2 := by
    have hkey : (Real.sqrt 2 * edge_OB p) ^ 2 =
        2 * (p.squareSideLength * p.squareSideLength +
          p.baseCutBackLength * p.baseCutBackLength) := by
      rw [mul_pow, pow_two, pow_two, sqrt_two_mul_self, hOB2]
    rw [div_pow, div_pow, hkey]
    have hpos : (0:ℝ) < 2 * (p.squareSideLength * p.squareSideLength +
        p.baseCutBackLength * p.baseCutBackLength) := by
      nlinarith [mul_self_nonneg p.baseCutBackLength]
    field_simp
    ring
  rw [h1v]
  exact Real.sqrt_sq
    (div_nonneg (by linarith [h.2.1]) (mul_nonneg sqrt_two_pos.le hOB.le))

lemma sin_angle_ABO (h : ValidDomain p) :
    Real.sin (angle_ABO p) = p.squareSideLength / edge_OB p := by
  have hOB : 0 < edge_OB p := edge_OB_pos h
  unfold angle_ABO
  rw [angle_OAB_eq h, show Real.pi - Real.pi / 4 - angle_AOB p =
    Real.pi - (Real.pi / 4 + angle_AOB p) by ring, Real.sin_pi_sub,
    Real.sin_add, Real.sin_pi_div_four, Real.cos_pi_div_four,
    cos_angle_AOB h, sin_angle_AOB h]
  have key : ∀ X : ℝ,
      Real.sqrt 2 / 2 * (X / (Real.sqrt 2 * edge_OB p)) = X / (2 * edge_OB p) := by
    intro X
    rw [div_mul_div_comm,
      show (2:ℝ) * (Real.sqrt 2 * edge_OB p) = Real.sqrt 2 * (2 * edge_OB p) by ring,
      mul_div_mul_left _ _ sqrt_two_pos.ne']
  rw [key, key, div_add_div_same,
    div_eq_div_iff (mul_pos two_pos hOB).ne' hOB.ne']
  ring

lemma asin_arg_eq (h : ValidDomain p) :
    edge_AC p / (2 * edge_OA p) =
      (p.squareSideLength - p.baseCutBackLength) *
          Real.sin (p.angle_ABC * 0.5) /
        (p.squareSideLength * Real.sqrt 2) := by
  rw [show edge_AC p = 2 * edge_BA p * Real.sin (p.angle_ABC * 0.5) from rfl,
    edge_OA_eq (vd_s_pos h).le]
  unfold edge_BA
  ring

lemma half_angle_pos (h : ValidDomain p) : 0 < p.angle_ABC * 0.5 := by
  have := h.2.2.1; nlinarith

lemma half_angle_lt (h : ValidDomain p) : p.angle_ABC * 0.5 < Real.pi / 2 := by
  have := h.2.2.2; nlinarith

lemma sin_half_pos (h : ValidDomain p) : 0 < Real.sin (p.angle_ABC * 0.5) :=
  Real.sin_pos_of_pos_of_lt_pi (half_angle_pos h)
    (by nlinarith [half_angle_lt h, Real.pi_pos])

lemma sin_half_le_one (p : InputParameters) :
    Real.sin (p.angle_ABC * 0.5) ≤ 1 := Real.sin_le_one _

lemma cos_half_pos (h : ValidDomain p) : 0 < Real.cos (p.angle_ABC * 0.5) :=
  Real.cos_pos_of_mem_Ioo
    ⟨by nlinarith [half_angle_pos h, Real.pi_pos], half_angle_lt h⟩

lemma one_le_sqrt_two : (1 : ℝ) ≤ Real.sqrt 2 := by
  rw [show (1:ℝ) = Real.sqrt 1 from Real.sqrt_one.symm]
  exact Real.sqrt_le_sqrt (by norm_num)

lemma asin_arg_nonneg (h : ValidDomain p) :
    0 ≤ edge_AC p / (2 * edge_OA p) := by
  rw [asin_arg_eq h]
  exact div_nonneg
    (mul_nonneg (by linarith [h.2.1]) (sin_half_pos h).le)
    (mul_nonneg (vd_s_pos h).le (Real.sqrt_nonneg 2))

lemma asin_arg_le_one (h : ValidDomain p) :
    edge_AC p / (2 * edge_OA p) ≤ 1 := by
  rw [asin_arg_eq h]
  have hs : 0 < p.squareSideLength := vd_s_pos h
  rw [div_le_one (mul_pos hs sqrt_two_pos)]
  nlinarith [sin_half_pos h, sin_half_le_one p, h.1, h.2.1, one_le_sqrt_two]

lemma sin_angle_AOC (h : ValidDomain p) :
    Real.sin (angle_AOC p) =
      2 * (edge_AC p / (2 * edge_OA p)) *
        Real.sqrt (1 - (edge_AC p / (2 * edge_OA p)) ^ 2) := by
  unfold angle_AOC
  rw [Real.sin_two_mul,
    Real.sin_arcsin (le_trans (by norm_num) (asin_arg_nonneg h)) (asin_arg_le_one h),
    Real.cos_arcsin]

lemma sin_angle_OAC (_h : ValidDomain p) :
    Real.sin (angle_OAC p) =
      Real.sqrt (1 - (edge_AC p / (2 * edge_OA p)) ^ 2) := by
  unfold angle_OAC angle_AOC
  rw [show (Real.pi - 2 * Real.arcsin (edge_AC p / (2 * edge_OA p))) * 0.5 =
      Real.pi / 2 - Real.arcsin (edge_AC p / (2 * edge_OA p)) by ring,
    Real.sin_pi_div_two_sub, Real.cos_arcsin]

lemma sin_angle_BAC (p : InputParameters) :
    Real.sin (angle_BAC p) = Real.cos (p.angle_ABC * 0.5) := by
  unfold angle_BAC angle_ABC
  rw [show (Real.pi - p.angle_ABC) * 0.5 =
      Real.pi / 2 - p.angle_ABC * 0.5 by ring, Real.sin_pi_div_two_sub]

lemma sin_angle_ABC_out (p : InputParameters) :
    Real.sin (angle_ABC p) =
      2 * Real.sin (p.angle_ABC * 0.5) * Real.cos (p.angle_ABC * 0.5) := by
  unfold angle_ABC
  conv_lhs => rw [show p.angle_ABC = 2 * (p.angle_ABC * 0.5) by ring]
  exact Real.sin_two_mul _

lemma lsc1_eq (p : InputParameters) : lsc1_lhs p = lsc1_rhs p := by
  unfold lsc1_lhs lsc1_rhs angle_OCA angle_OCB angle_CBO
  ring

lemma lsc3_eq (p : InputParameters) : lsc3_lhs p = lsc3_rhs p := by
  unfold lsc3_lhs lsc3_rhs angle_BCA angle_OCB angle_COB
  ring

lemma lsc2_eq (h : ValidDomain p) : lsc2_lhs p = lsc2_rhs p := by
  have hs : 0 < p.squareSideLength := vd_s_pos h
  have hOB : 0 < edge_OB p := edge_OB_pos h
  unfold lsc2_lhs lsc2_rhs angle_OCA angle_BCA
  rw [sin_angle_AOC h, sin_angle_BAC, sin_angle_ABO h, sin_angle_OAC h,
    sin_angle_ABC_out, sin_angle_AOB h, asin_arg_eq h]
  field_simp
  ring

lemma lsc4_eq (h : ValidDomain p) : lsc4_lhs p = lsc4_rhs p := by
  have hs : 0 < p.squareSideLength := vd_s_pos h
  have hOB : 0 < edge_OB p := edge_OB_pos h
  unfold lsc4_lhs lsc4_rhs angle_COB angle_CBO angle_BAC
  rw [sin_angle_AOC h, sin_angle_ABO h, sin_angle_OAC h,
    sin_angle_ABC_out, sin_angle_AOB h, asin_arg_eq h]
  rw [show Real.sin ((Real.pi - angle_ABC p) * 0.5) =
      Real.cos (p.angle_ABC * 0.5) from sin_angle_BAC p]
  field_simp
  ring

/-- on the spec's valid input domain the four law-of-sines cross-checks hold
exactly, so `evaluate` succeeds and produces the full output. -/
lemma evaluate_valid (h : ValidDomain p) : evaluate p = (false, fullOutput p) := by
  unfold evaluate
  rw [lsc1_eq p, lsc2_eq h, lsc3_eq p, lsc4_eq h]
  simp only [sub_self, abs_zero, epsilon]
  norm_num

end ValidGeometry

lemma validDomain_default : ValidDomain getDefaultInputParameters := by
  unfold ValidDomain getDefaultInputParameters GLKMathDegreesToRadians
  refine ⟨by norm_num, by norm_num, ?_, ?_⟩
  · simp only
    nlinarith [Real.pi_pos]
  · simp only
    nlinarith [Real.pi_pos]

/-- Claim C5: for every input that passes validation, the second tetrahedron's
vertices are exactly the first tetrahedron's vertices with the z coordinate
negated: `A1 = (A0.x, A0.y, −A0.z)`, and likewise `B1` from `B0` and `C1`
from `C0`. -/
theorem claim_C5 (p : InputParameters) (h : (evaluate p).1 = false) :
    ((evaluate p).2).vertex_coord.A1 =
        GLKVector3Make (((evaluate p).2).vertex_coord.A0.x)
          (((evaluate p).2).vertex_coord.A0.y)
          (-(((evaluate p).2).vertex_coord.A0.z)) ∧
      ((evaluate p).2).vertex_coord.B1 =
        GLKVector3Make (((evaluate p).2).vertex_coord.B0.x)
          (((evaluate p).2).vertex_coord.B0.y)
          (-(((evaluate p).2).vertex_coord.B0.z)) ∧
      ((evaluate p).2).vertex_coord.C1 =
        GLKVector3Make (((evaluate p).2).vertex_coord.C0.x)
          (((evaluate p).2).vertex_coord.C0.y)
          (-(((evaluate p).2).vertex_coord.C0.z)) := by
  rw [evaluate_fst_false_snd p h]
  refine ⟨?_, ?_, ?_⟩ <;>
    simp [fullOutput, coord_A1, coord_B1, coord_C1, GLKVector3Multiply,
      GLKVector3Make, mul_one, mul_neg_one]

/-- Witness for claim C5: the default inputs pass validation and the mirrored
vertices are the sign-flipped originals there. -/
theorem claim_C5_witness :
    (evaluate getDefaultInputParameters).1 = false ∧
      ((evaluate getDefaultInputParameters).2).vertex_coord.A1 =
        GLKVector3Make (((evaluate getDefaultInputParameters).2).vertex_coord.A0.x)
          (((evaluate getDefaultInputParameters).2).vertex_coord.A0.y)
          (-(((evaluate getDefaultInputParameters).2).vertex_coord.A0.z)) ∧
      ((evaluate getDefaultInputParameters).2).vertex_coord.B1 =
        GLKVector3Make (((evaluate getDefaultInputParameters).2).vertex_coord.B0.x)
          (((evaluate getDefaultInputParameters).2).vertex_coord.B0.y)
          (-(((evaluate getDefaultInputParameters).2).vertex_coord.B0.z)) ∧
      ((evaluate getDefaultInputParameters).2).vertex_coord.C1 =
        GLKVector3Make (((evaluate getDefaultInputParameters).2).vertex_coord.C0.x)
          (((evaluate getDefaultInputParameters).2).vertex_coord.C0.y)
          (-(((evaluate getDefaultInputParameters).2).vertex_coord.C0.z)) :=
  have hf : (evaluate getDefaultInputParameters).1 = false := by
    rw [evaluate_valid validDomain_default]
  ⟨hf, claim_C5 getDefaultInputParameters hf⟩

/-- Claim C10: for every valid input, `total.mass` equals `frame.metal_mass`
alone, while `total.cost` is the sum of the metal, drill, tap, mirror and
mirror-bolt costs. -/
theorem claim_C10 (p : InputParameters) (h : (evaluate p).1 = false) :
    ((evaluate p).2).total.mass = ((evaluate p).2).frame.metal_mass ∧
      ((evaluate p).2).total.cost =
        ((evaluate p).2).frame.metal_cost + ((evaluate p).2).frame.drill_cost +
          ((evaluate p).2).frame.tap_cost + ((evaluate p).2).mirror.cost +
          ((evaluate p).2).mirror.bolt_cost := by
  rw [evaluate_fst_false_snd p h]
  exact ⟨rfl, rfl⟩

/-- Witness for claim C10 at the default inputs. -/
theorem claim_C10_witness :
    (evaluate getDefaultInputParameters).1 = false ∧
      ((evaluate getDefaultInputParameters).2).total.mass =
        ((evaluate getDefaultInputParameters).2).frame.metal_mass ∧
      ((evaluate getDefaultInputParameters).2).total.cost =
        ((evaluate getDefaultInputParameters).2).frame.metal_cost +
          ((evaluate getDefaultInputParameters).2).frame.drill_cost +
          ((evaluate getDefaultInputParameters).2).frame.tap_cost +
          ((evaluate getDefaultInputParameters).2).mirror.cost +
          ((evaluate getDefaultInputParameters).2).mirror.bolt_cost :=
  have hf : (evaluate getDefaultInputParameters).1 = false := by
    rw [evaluate_valid validDomain_default]
  ⟨hf, (claim_C10 getDefaultInputParameters hf).1,
    (claim_C10 getDefaultInputParameters hf).2⟩

/-- Claim C9: on the valid input domain, the angle `angle_ABO` that the code
derives as π minus the other two angles of triangle O-B-A coincides with the
cosine-law angle opposite side `OA`,
`acos((BA² + OB² − OA²) / (2·BA·OB))`, as the spec describes it. -/
theorem claim_C9 (p : InputParameters) (h : ValidDomain p) :
    angle_ABO p = angle_ABO_cosineLaw p := by
  have hs : 0 < p.squareSideLength := vd_s_pos h
  have hOB : 0 < edge_OB p := edge_OB_pos h
  have hBA : 0 < edge_BA p := edge_BA_pos h
  have hβ0 : 0 ≤ angle_AOB p := Real.arccos_nonneg _
  have hβhalf : angle_AOB p ≤ Real.pi / 2 := by
    unfold angle_AOB
    rw [angle_AOB_arg h]
    exact Real.arccos_le_pi_div_two.2 (angle_AOB_arg_nonneg h)
  have hBA' : 0 < p.squareSideLength - p.baseCutBackLength := by
    have := hBA
    unfold edge_BA at this
    exact this
  have hw : (sq (edge_BA p) + sq (edge_OB p) - sq (edge_OA p)) /
      (2 * edge_BA p * edge_OB p) = -(p.baseCutBackLength / edge_OB p) := by
    rw [sq_edge_OA, sq_edge_OB, ← neg_div]
    unfold sq edge_BA
    rw [div_eq_div_iff (mul_pos (mul_pos two_pos hBA') hOB).ne' hOB.ne']
    ring
  have hA : angle_ABO p = Real.pi - (Real.pi / 4 + angle_AOB p) := by
    unfold angle_ABO
    rw [angle_OAB_eq h]
    ring
  have key : ∀ X : ℝ,
      Real.sqrt 2 / 2 * (X / (Real.sqrt 2 * edge_OB p)) = X / (2 * edge_OB p) := by
    intro X
    rw [div_mul_div_comm,
      show (2:ℝ) * (Real.sqrt 2 * edge_OB p) = Real.sqrt 2 * (2 * edge_OB p) by ring,
      mul_div_mul_left _ _ sqrt_two_pos.ne']
  have hcos : Real.cos (angle_ABO p) = -(p.baseCutBackLength / edge_OB p) := by
    rw [hA, Real.cos_pi_sub, Real.cos_add, Real.cos_pi_div_four,
      Real.sin_pi_div_four, cos_angle_AOB h, sin_angle_AOB h, key, key,
      div_sub_div_same,
      show p.squareSideLength + p.baseCutBackLength -
          (p.squareSideLength - p.baseCutBackLength) =
        2 * p.baseCutBackLength by ring,
      mul_div_mul_left _ _ (two_ne_zero)]
  have hub : angle_ABO p ≤ Real.pi := by
    rw [hA]
    nlinarith [Real.pi_pos]
  have hlb : 0 ≤ angle_ABO p := by
    rw [hA]
    nlinarith [Real.pi_pos]
  unfold angle_ABO_cosineLaw
  rw [hw, ← hcos]
  exact (Real.arccos_cos hlb hub).symm

/-- Witness for claim C9: the default inputs lie in the valid domain and the
two derivations of `angle_ABO` agree there. -/
theorem claim_C9_witness :
    ValidDomain getDefaultInputParameters ∧
      angle_ABO getDefaultInputParameters =
        angle_ABO_cosineLaw getDefaultInputParameters :=
  ⟨validDomain_default, claim_C9 getDefaultInputParameters validDomain_default⟩

lemma sqrt_le_of_sq_le {a b : ℝ} (hb : 0 ≤ b) (h : a ≤ b ^ 2) :
    Real.sqrt a ≤ b := by
  rw [← Real.sqrt_sq hb]
  exact Real.sqrt_le_sqrt h

lemma le_sqrt_of_sq_le {a b : ℝ} (ha : 0 ≤ a) (h : a ^ 2 ≤ b) :
    a ≤ Real.sqrt b := by
  rw [← Real.sqrt_sq ha]
  exact Real.sqrt_le_sqrt h

lemma x324_bounds :
    (0.1066589 : ℝ) ≤ 11 * Real.pi / 324 ∧ 11 * Real.pi / 324 ≤ 0.1066591 := by
  constructor
  · nlinarith [Real.pi_gt_d6]
  · nlinarith [Real.pi_lt_d6]

lemma sin_x324_bounds :
    (0.1064495 : ℝ) ≤ Real.sin (11 * Real.pi / 324) ∧
      Real.sin (11 * Real.pi / 324) ≤ 0.1064640 := by
  obtain ⟨ha, hb⟩ := x324_bounds
  set x := 11 * Real.pi / 324 with hxdef
  have hx0 : (0:ℝ) ≤ x := by linarith
  have hx1 : |x| ≤ 1 := by
    rw [abs_of_nonneg hx0]
    linarith
  have hb4 := Real.sin_bound hx1
  rw [abs_le, abs_of_nonneg hx0] at hb4
  have h3l : (0.1066589:ℝ) ^ 3 ≤ x ^ 3 := pow_le_pow_left₀ (by norm_num) ha 3
  have h3u : x ^ 3 ≤ (0.1066591:ℝ) ^ 3 := pow_le_pow_left₀ hx0 hb 3
  have h4u : x ^ 4 ≤ (0.1066591:ℝ) ^ 4 := pow_le_pow_left₀ hx0 hb 4
  have h40 : (0:ℝ) ≤ x ^ 4 := by positivity
  constructor
  · nlinarith [hb4.1]
  · nlinarith [hb4.2]

/-- the map `y ↦ 3y − 4y³` of the triple-angle formula is monotone on
`[0, 1/2]`, giving interval bounds through each reduction step. -/
lemma cubic_step {y l u : ℝ} (h0 : 0 ≤ l) (h1 : l ≤ y) (h2 : y ≤ u)
    (h3 : u ≤ 1 / 2) :
    3 * l - 4 * l ^ 3 ≤ 3 * y - 4 * y ^ 3 ∧
      3 * y - 4 * y ^ 3 ≤ 3 * u - 4 * u ^ 3 := by
  have hy0 : 0 ≤ y := h0.trans h1
  have hyu : y ≤ 1 / 2 := h2.trans h3
  have hlu : l ≤ 1 / 2 := h1.trans hyu
  have e1 : 0 ≤ y * (1 / 2 - y) := mul_nonneg hy0 (by linarith)
  have e2 : 0 ≤ y * (1 / 2 - l) := mul_nonneg hy0 (by linarith)
  have e3 : 0 ≤ l * (1 / 2 - l) := mul_nonneg h0 (by linarith)
  have e4 : 0 ≤ u * (1 / 2 - u) := mul_nonneg (hy0.trans h2) (by linarith)
  have e5 : 0 ≤ u * (1 / 2 - y) := mul_nonneg (hy0.trans h2) (by linarith)
  have hin1 : 0 ≤ 3 - 4 * (y ^ 2 + y * l + l ^ 2) := by nlinarith
  have hin2 : 0 ≤ 3 - 4 * (u ^ 2 + u * y + y ^ 2) := by nlinarith
  constructor
  · nlinarith [mul_nonneg (sub_nonneg.2 h1) hin1]
  · nlinarith [mul_nonneg (sub_nonneg.2 h2) hin2]

lemma sin_x108_bounds :
    (0.314523 : ℝ) ≤ Real.sin (11 * Real.pi / 108) ∧
      Real.sin (11 * Real.pi / 108) ≤ 0.314566 := by
  have h3 : Real.sin (11 * Real.pi / 108) =
      3 * Real.sin (11 * Real.pi / 324) - 4 * Real.sin (11 * Real.pi / 324) ^ 3 := by
    rw [show 11 * Real.pi / 108 = 3 * (11 * Real.pi / 324) by ring,
      Real.sin_three_mul]
  obtain ⟨hl, hu⟩ := sin_x324_bounds
  have hstep := cubic_step (l := 0.1064495) (u := 0.1064640)
    (by norm_num) hl hu (by norm_num)
  rw [h3]
  constructor
  · nlinarith [hstep.1]
  · nlinarith [hstep.2]

/-- certified rational bounds for `sin 55° = sin(11π/36)`, obtained from the
degree-3 Taylor bound at `11π/324` and two triple-angle steps. -/
lemma sin55_bounds :
    (0.8191 : ℝ) ≤ Real.sin (11 * Real.pi / 36) ∧
      Real.sin (11 * Real.pi / 36) ≤ 0.8193 := by
  have h3 : Real.sin (11 * Real.pi / 36) =
      3 * Real.sin (11 * Real.pi / 108) - 4 * Real.sin (11 * Real.pi / 108) ^ 3 := by
    rw [show 11 * Real.pi / 36 = 3 * (11 * Real.pi / 108) by ring,
      Real.sin_three_mul]
  obtain ⟨hl, hu⟩ := sin_x108_bounds
  have hstep := cubic_step (l := 0.314523) (u := 0.314566)
    (by norm_num) hl hu (by norm_num)
  rw [h3]
  constructor
  · nlinarith [hstep.1]
  · nlinarith [hstep.2]

lemma edge_AC_default :
    edge_AC getDefaultInputParameters = 28 * Real.sin (11 * Real.pi / 36) := by
  unfold edge_AC edge_BA getDefaultInputParameters GLKMathDegreesToRadians
  simp only
  rw [show (110:ℝ) * (Real.pi / 180) * 0.5 = 11 * Real.pi / 36 by ring]
  norm_num

lemma edge_OB_default : edge_OB getDefaultInputParameters = Real.sqrt 260 := by
  unfold edge_OB getDefaultInputParameters
  norm_num

lemma edge_OA_default : edge_OA getDefaultInputParameters = Real.sqrt 512 := by
  unfold edge_OA getDefaultInputParameters
  norm_num

lemma edge_BA_default : edge_BA getDefaultInputParameters = 14 := by
  unfold edge_BA getDefaultInputParameters
  norm_num

/-- Claim C4 counterexample: for the documented default inputs the computed
`edge_length.AC = 28·sin 55° ≈ 22.936`, which is more than `1e-2` away from
the spec's claimed `23.432`; so the claimed conjunction of edge-length bounds
is false. -/
theorem claim_C4_counterexample :
    ¬ (|((evaluate getDefaultInputParameters).2).edge_length.OB - 16.124| ≤ 1e-2 ∧
       |((evaluate getDefaultInputParameters).2).edge_length.BA - 14.0| ≤ 1e-2 ∧
       |((evaluate getDefaultInputParameters).2).edge_length.OA - 22.627| ≤ 1e-2 ∧
       |((evaluate getDefaultInputParameters).2).edge_length.AC - 23.432| ≤ 1e-2) := by
  intro hcl
  have hAC := hcl.2.2.2
  rw [evaluate_snd_edge_length] at hAC
  simp only at hAC
  rw [edge_AC_default, abs_le] at hAC
  nlinarith [sin55_bounds.2]

/-- Claim C4 amended: for the documented default inputs,
`edge_length.OB ≈ 16.124`, `BA = 14.0`, `OA ≈ 22.627` and `AC ≈ 22.936`
(not 23.432), each within `1e-2`. -/
theorem claim_C4_amended :
    |((evaluate getDefaultInputParameters).2).edge_length.OB - 16.124| ≤ 1e-2 ∧
      |((evaluate getDefaultInputParameters).2).edge_length.BA - 14.0| ≤ 1e-2 ∧
      |((evaluate getDefaultInputParameters).2).edge_length.OA - 22.627| ≤ 1e-2 ∧
      |((evaluate getDefaultInputParameters).2).edge_length.AC - 22.936| ≤ 1e-2 := by
  rw [evaluate_snd_edge_length]
  simp only
  refine ⟨?_, ?_, ?_, ?_⟩
  · rw [edge_OB_default, abs_le]
    have h1 : Real.sqrt 260 ≤ 16.134 := sqrt_le_of_sq_le (by norm_num) (by norm_num)
    have h2 : (16.114:ℝ) ≤ Real.sqrt 260 := le_sqrt_of_sq_le (by norm_num) (by norm_num)
    constructor <;> [linarith; linarith]
  · rw [edge_BA_default]
    norm_num
  · rw [edge_OA_default, abs_le]
    have h1 : Real.sqrt 512 ≤ 22.637 := sqrt_le_of_sq_le (by norm_num) (by norm_num)
    have h2 : (22.617:ℝ) ≤ Real.sqrt 512 := le_sqrt_of_sq_le (by norm_num) (by norm_num)
    constructor <;> [linarith; linarith]
  · rw [edge_AC_default, abs_le]
    have h1 := sin55_bounds.1
    have h2 := sin55_bounds.2
    constructor <;> [nlinarith; nlinarith]

/-! ### The degenerate input `baseCutBackLength = squareSideLength` (claim C2) -/

lemma degenerate_edge_BA : edge_BA degenerateInput = 0 := by
  unfold edge_BA degenerateInput getDefaultInputParameters
  norm_num

lemma degenerate_edge_AC : edge_AC degenerateInput = 0 := by
  unfold edge_AC
  rw [degenerate_edge_BA]
  ring

lemma degenerate_edge_OA : edge_OA degenerateInput = Real.sqrt 512 := by
  unfold edge_OA degenerateInput getDefaultInputParameters
  norm_num

lemma degenerate_edge_OB : edge_OB degenerateInput = Real.sqrt 512 := by
  unfold edge_OB degenerateInput getDefaultInputParameters
  norm_num

lemma degenerate_angle_AOB : angle_AOB degenerateInput = 0 := by
  unfold angle_AOB
  rw [degenerate_edge_OA, degenerate_edge_OB, degenerate_edge_BA]
  unfold sq
  rw [Real.mul_self_sqrt (by norm_num : (0:ℝ) ≤ 512)]
  rw [show (512 + 512 - (0:ℝ) * 0) / (2 * Real.sqrt 512 * Real.sqrt 512) = 1 by
    rw [mul_assoc, Real.mul_self_sqrt (by norm_num : (0:ℝ) ≤ 512)]
    norm_num]
  exact Real.arccos_one

lemma degenerate_angle_AOC : angle_AOC degenerateInput = 0 := by
  unfold angle_AOC
  rw [degenerate_edge_AC, zero_div, Real.arcsin_zero, mul_zero]

lemma degenerate_lsc2 : lsc2_lhs degenerateInput = lsc2_rhs degenerateInput := by
  unfold lsc2_lhs lsc2_rhs
  rw [degenerate_angle_AOC, degenerate_angle_AOB, Real.sin_zero]
  ring

lemma degenerate_lsc4 : lsc4_lhs degenerateInput = lsc4_rhs degenerateInput := by
  unfold lsc4_lhs lsc4_rhs angle_COB
  rw [degenerate_angle_AOC, degenerate_angle_AOB, Real.sin_zero]
  ring

/-- Claim C2, what the code actually does at the spec's own failing input:
with `baseCutBackLength = squareSideLength = 16` (so `BA = 0`), no
law-of-sines comparison fires, `evaluate` reports NO failure (flag `false`)
and hands back a fully populated output with `BA = 0` inside.  (In the C
float code the same input produces `0/0 = NaN`, every NaN comparison is
false, and the NaN propagates into the output fields — likewise without a
reported failure.) -/
theorem claim_C2_code_eval :
    (evaluate degenerateInput).1 = false ∧
      ((evaluate degenerateInput).2).edge_length.BA = 0 := by
  have hev : evaluate degenerateInput = (false, fullOutput degenerateInput) := by
    unfold evaluate
    rw [lsc1_eq degenerateInput, degenerate_lsc2, lsc3_eq degenerateInput,
      degenerate_lsc4]
    simp only [sub_self, abs_zero, epsilon]
    norm_num
  refine ⟨by rw [hev], ?_⟩
  rw [evaluate_snd_edge_length]
  exact degenerate_edge_BA

/-! ### A concrete input that genuinely fails the validation (claims C1, C3) -/

lemma iti_proj_s : invalidTetraInput.squareSideLength = 16 := rfl

lemma iti_proj_c : invalidTetraInput.baseCutBackLength = 17 := rfl

lemma iti_proj_angle : invalidTetraInput.angle_ABC = Real.pi / 2 := rfl

lemma iti_edge_BA : edge_BA invalidTetraInput = -1 := by
  unfold edge_BA
  rw [iti_proj_s, iti_proj_c]
  norm_num

lemma iti_edge_OA : edge_OA invalidTetraInput = Real.sqrt 512 := by
  unfold edge_OA
  rw [iti_proj_s]
  norm_num

lemma iti_edge_OB : edge_OB invalidTetraInput = Real.sqrt 545 := by
  unfold edge_OB
  rw [iti_proj_s, iti_proj_c]
  norm_num

lemma sqrt512_eq : Real.sqrt 512 = 16 * Real.sqrt 2 := by
  rw [show (512:ℝ) = 16 ^ 2 * 2 by norm_num,
    Real.sqrt_mul (by positivity), Real.sqrt_sq (by norm_num)]

lemma sqrt_mul_sqrt_545 : Real.sqrt 512 * Real.sqrt 545 = Real.sqrt 279040 := by
  rw [← Real.sqrt_mul (by norm_num : (0:ℝ) ≤ 512)]
  norm_num

lemma iti_edge_AC : edge_AC invalidTetraInput = -(Real.sqrt 2) := by
  unfold edge_AC
  rw [iti_edge_BA, iti_proj_angle,
    show Real.pi / 2 * 0.5 = Real.pi / 4 by ring, Real.sin_pi_div_four]
  ring

lemma iti_t : edge_AC invalidTetraInput / (2 * edge_OA invalidTetraInput) =
    -(1 / 32) := by
  rw [iti_edge_AC, iti_edge_OA, sqrt512_eq,
    div_eq_iff (by positivity : ((2:ℝ) * (16 * Real.sqrt 2)) ≠ 0)]
  ring

lemma iti_sin_AOC :
    Real.sin (angle_AOC invalidTetraInput) = -(Real.sqrt (1023 / 1024) / 16) := by
  unfold angle_AOC
  rw [iti_t, Real.sin_two_mul,
    Real.sin_arcsin (by norm_num) (by norm_num), Real.cos_arcsin]
  norm_num
  ring

lemma iti_sin_OCA :
    Real.sin (angle_OCA invalidTetraInput) = Real.sqrt (1023 / 1024) := by
  unfold angle_OCA angle_OAC angle_AOC
  rw [iti_t,
    show (Real.pi - 2 * Real.arcsin (-(1 / 32 : ℝ))) * 0.5 =
      Real.pi / 2 - Real.arcsin (-(1 / 32 : ℝ)) by ring,
    Real.sin_pi_div_two_sub, Real.cos_arcsin]
  norm_num

lemma iti_sin_ABC : Real.sin (angle_ABC invalidTetraInput) = 1 := by
  unfold angle_ABC
  rw [iti_proj_angle, Real.sin_pi_div_two]

lemma iti_sin_BCA :
    Real.sin (angle_BCA invalidTetraInput) = Real.sqrt 2 / 2 := by
  unfold angle_BCA angle_BAC angle_ABC
  rw [iti_proj_angle,
    show (Real.pi - Real.pi / 2) * 0.5 = Real.pi / 4 by ring,
    Real.sin_pi_div_four]

lemma iti_angle_OAB : angle_OAB invalidTetraInput = Real.pi / 4 := by
  unfold angle_OAB
  rw [iti_edge_OA, iti_edge_OB, iti_edge_BA]
  unfold sq
  rw [Real.mul_self_sqrt (by norm_num : (0:ℝ) ≤ 512),
    Real.mul_self_sqrt (by norm_num : (0:ℝ) ≤ 545), sqrt512_eq,
    show (512 + -1 * -1 - 545 : ℝ) / (2 * (16 * Real.sqrt 2) * -1) =
      Real.sqrt 2 / 2 by
        rw [div_eq_div_iff
          (by nlinarith [sqrt_two_pos] : (2 * (16 * Real.sqrt 2) * -1 : ℝ) < 0).ne
          (two_ne_zero)]
        linear_combination (32:ℝ) * sqrt_two_mul_self]
  exact arccos_sqrt_two_div_two

lemma iti_angle_AOB_arg :
    (sq (edge_OA invalidTetraInput) + sq (edge_OB invalidTetraInput) -
        sq (edge_BA invalidTetraInput)) /
      (2 * edge_OA invalidTetraInput * edge_OB invalidTetraInput) =
    528 / Real.sqrt 279040 := by
  rw [iti_edge_OA, iti_edge_OB, iti_edge_BA]
  unfold sq
  rw [Real.mul_self_sqrt (by norm_num : (0:ℝ) ≤ 512),
    Real.mul_self_sqrt (by norm_num : (0:ℝ) ≤ 545),
    div_eq_div_iff (by positivity) (by positivity : Real.sqrt 279040 ≠ 0)]
  rw [← sqrt_mul_sqrt_545]
  ring

lemma iti_cos_AOB :
    Real.cos (angle_AOB invalidTetraInput) = 528 / Real.sqrt 279040 := by
  unfold angle_AOB
  rw [iti_angle_AOB_arg]
  have h0 : (0:ℝ) ≤ 528 / Real.sqrt 279040 := by positivity
  refine Real.cos_arccos (le_trans (by norm_num : (-1:ℝ) ≤ 0) h0) ?_
  rw [div_le_one (by positivity)]
  exact le_sqrt_of_sq_le (by norm_num) (by norm_num)

lemma iti_sin_AOB :
    Real.sin (angle_AOB invalidTetraInput) = 16 / Real.sqrt 279040 := by
  unfold angle_AOB
  rw [iti_angle_AOB_arg, Real.sin_arccos]
  have h1 : 1 - (528 / Real.sqrt 279040) ^ 2 = (16 / Real.sqrt 279040) ^ 2 := by
    rw [div_pow, div_pow, Real.sq_sqrt (by norm_num : (0:ℝ) ≤ 279040)]
    norm_num
  rw [h1, Real.sqrt_sq (by positivity)]

lemma iti_sin_ABO :
    Real.sin (angle_ABO invalidTetraInput) =
      Real.sqrt 2 / 2 * (544 / Real.sqrt 279040) := by
  unfold angle_ABO
  rw [iti_angle_OAB,
    show Real.pi - Real.pi / 4 - angle_AOB invalidTetraInput =
      Real.pi - (Real.pi / 4 + angle_AOB invalidTetraInput) by ring,
    Real.sin_pi_sub, Real.sin_add, Real.sin_pi_div_four, Real.cos_pi_div_four,
    iti_cos_AOB, iti_sin_AOB]
  ring

/-- at `invalidTetraInput` the second law-of-sines check misses by about
0.06, far beyond the 0.001 tolerance. -/
lemma invalid_lsc2_gap :
    epsilon < |lsc2_lhs invalidTetraInput - lsc2_rhs invalidTetraInput| := by
  have hdiff : lsc2_lhs invalidTetraInput - lsc2_rhs invalidTetraInput =
      -(33 * Real.sqrt (1023 / 1024) / Real.sqrt 279040) := by
    unfold lsc2_lhs lsc2_rhs
    rw [iti_sin_AOC, iti_sin_BCA, iti_sin_ABO, iti_sin_OCA, iti_sin_ABC,
      iti_sin_AOB]
    linear_combination
      (-(17 / 2 * Real.sqrt (1023 / 1024) / Real.sqrt 279040)) * sqrt_two_mul_self
  have hX : (0.9:ℝ) ≤ Real.sqrt (1023 / 1024) :=
    le_sqrt_of_sq_le (by norm_num) (by norm_num)
  have hR : Real.sqrt 279040 ≤ 529 :=
    sqrt_le_of_sq_le (by norm_num) (by norm_num)
  have hRpos : (0:ℝ) < Real.sqrt 279040 := Real.sqrt_pos.2 (by norm_num)
  rw [hdiff, abs_neg, abs_of_nonneg (by positivity)]
  unfold epsilon
  have hmain : (29.7:ℝ) / 529 ≤ 33 * Real.sqrt (1023 / 1024) / Real.sqrt 279040 :=
    div_le_div₀ (by positivity) (by nlinarith) hRpos hR
  nlinarith [hmain]

lemma lawOfSinesFails_invalid : lawOfSinesFails invalidTetraInput :=
  Or.inr (Or.inl invalid_lsc2_gap)

/-- any failing check makes `evaluate` return the failure flag together with
the partially written output. -/
lemma evaluate_fails {p : InputParameters} (h : lawOfSinesFails p) :
    evaluate p = (true, partialOutput p) := by
  unfold lawOfSinesFails at h
  unfold evaluate
  split_ifs with h1 h2 h3 h4
  · rfl
  · rfl
  · rfl
  · rfl
  · exact absurd h (by
      push_neg
      exact ⟨not_lt.1 h1, not_lt.1 h2, not_lt.1 h3, not_lt.1 h4⟩)

lemma getOutput_dirty (p : InputParameters) (op₀ : OutputParameters) :
    getOutputParameters ⟨p, op₀, true⟩ =
      ((evaluate p).2, ⟨p, (evaluate p).2, false⟩) := by
  unfold getOutputParameters
  simp

lemma getOutput_clean (p : InputParameters) (op₀ : OutputParameters) :
    getOutputParameters ⟨p, op₀, false⟩ = (op₀, ⟨p, op₀, false⟩) := by
  unfold getOutputParameters
  simp

/-- Claim C3: when the law-of-sines validation fails, `evaluate` returns early
with the failure flag after having written only `edge_length` and
`vertex_angle` over the memset zero (all remaining groups still zero);
`getOutputParameters` nevertheless clears the dirty flag, caches the partial
struct and returns it; and a further call with unchanged inputs returns the
very same cached struct with the state unchanged. -/
theorem claim_C3 (p : InputParameters) (op₀ : OutputParameters)
    (h : lawOfSinesFails p) :
    evaluate p = (true,
      { OutputParameters.zero with
        edge_length := ⟨edge_OB p, edge_BA p, edge_OA p, edge_AC p⟩
        vertex_angle :=
          ⟨angle_OAB p, angle_AOB p, angle_ABO p, angle_OCB p, angle_COB p,
           angle_CBO p, angle_ABC p, angle_BAC p, angle_BCA p, angle_AOC p,
           angle_OAC p, angle_OCA p⟩ }) ∧
      getOutputParameters ⟨p, op₀, true⟩ =
        ((evaluate p).2, ⟨p, (evaluate p).2, false⟩) ∧
      getOutputParameters ⟨p, (evaluate p).2, false⟩ =
        ((evaluate p).2, ⟨p, (evaluate p).2, false⟩) :=
  ⟨evaluate_fails h, getOutput_dirty p op₀, getOutput_clean p _⟩

/-- Witness for claim C3: the concrete invalid input fails the validation, and
the cached partial output with cleared dirty flag is observed there. -/
theorem claim_C3_witness :
    lawOfSinesFails invalidTetraInput ∧
      (evaluate invalidTetraInput = (true,
        { OutputParameters.zero with
          edge_length :=
            ⟨edge_OB invalidTetraInput, edge_BA invalidTetraInput,
             edge_OA invalidTetraInput, edge_AC invalidTetraInput⟩
          vertex_angle :=
            ⟨angle_OAB invalidTetraInput, angle_AOB invalidTetraInput,
             angle_ABO invalidTetraInput, angle_OCB invalidTetraInput,
             angle_COB invalidTetraInput, angle_CBO invalidTetraInput,
             angle_ABC invalidTetraInput, angle_BAC invalidTetraInput,
             angle_BCA invalidTetraInput, angle_AOC invalidTetraInput,
             angle_OAC invalidTetraInput, angle_OCA invalidTetraInput⟩ }) ∧
        getOutputParameters ⟨invalidTetraInput, OutputParameters.zero, true⟩ =
          ((evaluate invalidTetraInput).2,
            ⟨invalidTetraInput, (evaluate invalidTetraInput).2, false⟩) ∧
        getOutputParameters
            ⟨invalidTetraInput, (evaluate invalidTetraInput).2, false⟩ =
          ((evaluate invalidTetraInput).2,
            ⟨invalidTetraInput, (evaluate invalidTetraInput).2, false⟩)) :=
  ⟨lawOfSinesFails_invalid,
    claim_C3 invalidTetraInput OutputParameters.zero lawOfSinesFails_invalid⟩

/-- Claim C1 counterexample: at a concrete input on which the law-of-sines
cross-check exceeds the 0.001 tolerance, `evaluate` aborts and returns the
failure flag `true`, but the public retrieval operation `getOutputParameters`
DOES produce an output — the partially populated struct, with `total.cost`
zero — and clears the dirty flag; the flag is discarded, so the
GeometryInvalid failure is never surfaced to the caller, refuting the claim
that it is surfaced rather than silently defaulted. -/
theorem claim_C1_counterexample :
    epsilon < |lsc2_lhs invalidTetraInput - lsc2_rhs invalidTetraInput| ∧
      (evaluate invalidTetraInput).1 = true ∧
      (getOutputParameters ⟨invalidTetraInput, OutputParameters.zero, true⟩).1 =
        partialOutput invalidTetraInput ∧
      (getOutputParameters
          ⟨invalidTetraInput, OutputParameters.zero, true⟩).2.is_dirty = false ∧
      (partialOutput invalidTetraInput).total.cost = 0 := by
  have hev := evaluate_fails lawOfSinesFails_invalid
  refine ⟨invalid_lsc2_gap, by rw [hev], ?_, ?_, rfl⟩
  · rw [getOutput_dirty, hev]
  · rw [getOutput_dirty]

/-- Claim C1 amended: for every input on which a law-of-sines check exceeds
the tolerance, evaluation does abort early — `evaluate` returns flag `true`
and only the partially written output (post-validation fields zero, in
particular `total.cost = 0`) — but `getOutputParameters` discards that flag:
it caches and returns the partial struct and clears the dirty flag, so the
failure is reported only by the printed message and the ignored return value
of `evaluate`, not surfaced through `getOutputParameters`. -/
theorem claim_C1_amended (p : InputParameters) (op₀ : OutputParameters)
    (h : lawOfSinesFails p) :
    (evaluate p).1 = true ∧
      getOutputParameters ⟨p, op₀, true⟩ =
        (partialOutput p, ⟨p, partialOutput p, false⟩) ∧
      (partialOutput p).total.cost = 0 := by
  have hev := evaluate_fails h
  refine ⟨by rw [hev], ?_, rfl⟩
  rw [getOutput_dirty, hev]

/-- Witness for the amended claim C1 at the concrete failing input. -/
theorem claim_C1_witness :
    lawOfSinesFails invalidTetraInput ∧
      ((evaluate invalidTetraInput).1 = true ∧
        getOutputParameters ⟨invalidTetraInput, OutputParameters.zero, true⟩ =
          (partialOutput invalidTetraInput,
            ⟨invalidTetraInput, partialOutput invalidTetraInput, false⟩) ∧
        (partialOutput invalidTetraInput).total.cost = 0) :=
  ⟨lawOfSinesFails_invalid,
    claim_C1_amended invalidTetraInput OutputParameters.zero
      lawOfSinesFails_invalid⟩

/-! ### Closed form of the sweep-mode cost (claim C6) -/

section Sweep

variable {s : ℝ}

lemma sweep_half_angle (s : ℝ) :
    (sweepInput s).angle_ABC * 0.5 = 11 * Real.pi / 36 := by
  rw [show (sweepInput s).angle_ABC = 110 * (Real.pi / 180) from rfl]
  ring

lemma cos55_pos : 0 < Real.cos (11 * Real.pi / 36) :=
  Real.cos_pos_of_mem_Ioo
    ⟨by nlinarith [Real.pi_pos], by nlinarith [Real.pi_pos]⟩

lemma sin55_sq_add_cos55_sq :
    Real.sin (11 * Real.pi / 36) ^ 2 + Real.cos (11 * Real.pi / 36) ^ 2 = 1 :=
  Real.sin_sq_add_cos_sq _

lemma cos55_sq_lb : (0.32 : ℝ) ≤ Real.cos (11 * Real.pi / 36) ^ 2 := by
  nlinarith [sin55_sq_add_cos55_sq, sin55_bounds.1, sin55_bounds.2]

lemma sweep_edge_BA (s : ℝ) : edge_BA (sweepInput s) = s - 2 := rfl

lemma sweep_edge_OB (s : ℝ) : edge_OB (sweepInput s) = Real.sqrt (s * s + 4) := by
  show Real.sqrt (s * s + 2 * 2) = Real.sqrt (s * s + 4)
  norm_num

lemma sweep_edge_OA (hs : 0 ≤ s) : edge_OA (sweepInput s) = s * Real.sqrt 2 :=
  edge_OA_eq (p := sweepInput s) hs

lemma sweep_edge_AC (s : ℝ) :
    edge_AC (sweepInput s) = 2 * (s - 2) * Real.sin (11 * Real.pi / 36) := by
  unfold edge_AC
  rw [sweep_edge_BA, sweep_half_angle]

lemma sweep_length_AM (s : ℝ) :
    length_AM (sweepInput s) = (s - 2) * Real.sin (11 * Real.pi / 36) := by
  unfold length_AM
  rw [sweep_edge_AC]
  ring

lemma sweep_B0z (hs : 8 ≤ s) :
    (coord_B0 (sweepInput s)).z = (s - 2) * Real.cos (11 * Real.pi / 36) := by
  show Real.sqrt (sq (edge_BA (sweepInput s)) - sq (length_AM (sweepInput s))) = _
  rw [sweep_edge_BA, sweep_length_AM]
  unfold sq
  rw [show (s - 2) * (s - 2) -
        (s - 2) * Real.sin (11 * Real.pi / 36) *
          ((s - 2) * Real.sin (11 * Real.pi / 36)) =
      (s - 2) * Real.cos (11 * Real.pi / 36) *
        ((s - 2) * Real.cos (11 * Real.pi / 36)) by
    linear_combination (-((s - 2) * (s - 2))) * sin55_sq_add_cos55_sq]
  exact Real.sqrt_mul_self (mul_nonneg (by linarith) cos55_pos.le)

lemma sweep_Oz (hs : 8 ≤ s) :
    coord_O_z (sweepInput s) =
      (s - 2) * Real.cos (11 * Real.pi / 36) +
        2 / Real.cos (11 * Real.pi / 36) := by
  have hCne : Real.cos (11 * Real.pi / 36) ≠ 0 := cos55_pos.ne'
  have hs2 : (s - 2) ≠ 0 := (by linarith : (0:ℝ) < s - 2).ne'
  unfold coord_O_z
  rw [sq_edge_OB, sq_edge_OA, sweep_B0z hs, sweep_length_AM,
    show (sweepInput s).squareSideLength = s from rfl,
    show (sweepInput s).baseCutBackLength = 2 from rfl]
  unfold sq
  field_simp
  linear_combination ((s - 2) * (s - 2) * Real.cos (11 * Real.pi / 36)) *
    sin55_sq_add_cos55_sq

lemma sweep_OyArg (hs : 8 ≤ s) :
    sq (edge_OA (sweepInput s)) - sq (length_AM (sweepInput s)) -
        sq (coord_O_z (sweepInput s)) =
      s * s + 4 -
        4 / (Real.cos (11 * Real.pi / 36) * Real.cos (11 * Real.pi / 36)) := by
  have hCne : Real.cos (11 * Real.pi / 36) ≠ 0 := cos55_pos.ne'
  rw [sq_edge_OA, sweep_length_AM, sweep_Oz hs,
    show (sweepInput s).squareSideLength = s from rfl]
  unfold sq
  field_simp
  linear_combination
    (-((s - 2) * (s - 2) * Real.cos (11 * Real.pi / 36) *
      Real.cos (11 * Real.pi / 36))) * sin55_sq_add_cos55_sq

lemma sweep_OyArg_nonneg (hs : 8 ≤ s) :
    0 ≤ s * s + 4 -
      4 / (Real.cos (11 * Real.pi / 36) * Real.cos (11 * Real.pi / 36)) := by
  have h1 : (0:ℝ) < Real.cos (11 * Real.pi / 36) * Real.cos (11 * Real.pi / 36) :=
    mul_pos cos55_pos cos55_pos
  rw [sub_nonneg, div_le_iff₀ h1]
  nlinarith [cos55_sq_lb]

lemma sweep_Oy_sq (hs : 8 ≤ s) :
    coord_O_y (sweepInput s) * coord_O_y (sweepInput s) =
      s * s + 4 -
        4 / (Real.cos (11 * Real.pi / 36) * Real.cos (11 * Real.pi / 36)) := by
  have h0 : 0 ≤ sq (edge_OA (sweepInput s)) - sq (length_AM (sweepInput s)) -
      sq (coord_O_z (sweepInput s)) := by
    rw [sweep_OyArg hs]
    exact sweep_OyArg_nonneg hs
  unfold coord_O_y
  rw [Real.mul_self_sqrt h0]
  exact sweep_OyArg hs

lemma sweep_B0t_z (hs : 8 ≤ s) :
    (coord_B0t (sweepInput s)).z = -(2 / Real.cos (11 * Real.pi / 36)) := by
  show (coord_B0 (sweepInput s)).z - coord_O_z (sweepInput s) = _
  rw [sweep_B0z hs, sweep_Oz hs]
  ring

lemma sweep_B1_z (hs : 8 ≤ s) :
    (coord_B1 (sweepInput s)).z = 2 / Real.cos (11 * Real.pi / 36) := by
  show (coord_B0t (sweepInput s)).z * (-1) = _
  rw [sweep_B0t_z hs]
  ring

lemma sweep_walkway (hs : 8 ≤ s) :
    walkway_base_width (sweepInput s) = 4 / Real.cos (11 * Real.pi / 36) := by
  unfold walkway_base_width
  rw [sweep_B1_z hs, sweep_B0t_z hs]
  ring

lemma sweep_Ot_x (s : ℝ) : (coord_Ot (sweepInput s)).x = 0 := rfl

lemma sweep_Ot_y (s : ℝ) :
    (coord_Ot (sweepInput s)).y = coord_O_y (sweepInput s) := rfl

lemma sweep_Ot_z (s : ℝ) : (coord_Ot (sweepInput s)).z = 0 := rfl

lemma sweep_B0t_x (s : ℝ) : (coord_B0t (sweepInput s)).x = 0 := rfl

lemma sweep_B0t_y (s : ℝ) : (coord_B0t (sweepInput s)).y = 0 := rfl

lemma sweep_A0t_x (s : ℝ) :
    (coord_A0t (sweepInput s)).x = -((s - 2) * Real.sin (11 * Real.pi / 36)) := by
  show -(length_AM (sweepInput s)) = _
  rw [sweep_length_AM]

lemma sweep_A0t_y (s : ℝ) : (coord_A0t (sweepInput s)).y = 0 := rfl

lemma sweep_A0t_z (hs : 8 ≤ s) :
    (coord_A0t (sweepInput s)).z =
      -((s - 2) * Real.cos (11 * Real.pi / 36) +
        2 / Real.cos (11 * Real.pi / 36)) := by
  show 0 - coord_O_z (sweepInput s) = _
  rw [sweep_Oz hs]
  ring

lemma sweep_triangle_area (hs : 8 ≤ s) :
    triangle_area (sweepInput s) = s * (s - 2) * 0.5 := by
  have hCne : Real.cos (11 * Real.pi / 36) ≠ 0 := cos55_pos.ne'
  have hOyC : coord_O_y (sweepInput s) * coord_O_y (sweepInput s) *
      (Real.cos (11 * Real.pi / 36) * Real.cos (11 * Real.pi / 36)) =
      (s * s + 4) * (Real.cos (11 * Real.pi / 36) * Real.cos (11 * Real.pi / 36))
        - 4 := by
    rw [sweep_Oy_sq hs]
    field_simp
  have key : ∀ E : ℝ, E = s * (s - 2) * (s * (s - 2)) →
      Real.sqrt E * 0.5 = s * (s - 2) * 0.5 := by
    intro E hE
    rw [hE, show s * (s - 2) * (s * (s - 2)) = (s * (s - 2)) * (s * (s - 2)) by
      ring, Real.sqrt_mul_self (by nlinarith)]
  unfold triangle_area GLKVector3Length GLKVector3CrossProduct GLKVector3Subtract
  simp only [sweep_Ot_x, sweep_Ot_y, sweep_Ot_z, sweep_B0t_x, sweep_B0t_y,
    sweep_B0t_z hs, sweep_A0t_x, sweep_A0t_y, sweep_A0t_z hs]
  apply key
  field_simp
  linear_combination
    ((Real.sin (11 * Real.pi / 36) ^ 2 + Real.cos (11 * Real.pi / 36) ^ 2) *
      (s - 2) ^ 2) * hOyC +
    ((s - 2) ^ 2 * (s * s + 4) * Real.cos (11 * Real.pi / 36) ^ 2) *
      sin55_sq_add_cos55_sq

lemma validDomain_sweep (hs : 2 < s) : ValidDomain (sweepInput s) := by
  refine ⟨?_, ?_, ?_, ?_⟩
  · show (0:ℝ) < 2
    norm_num
  · show (2:ℝ) < s
    exact hs
  · show 0 < 110 * (Real.pi / 180)
    positivity
  · show 110 * (Real.pi / 180) < Real.pi
    nlinarith [Real.pi_pos]

lemma sweep_total_length (hs : 8 ≤ s) :
    total_length (sweepInput s) =
      (s - 2) * 4 + s * Real.sqrt 2 * 4 + Real.sqrt (s * s + 4) * 4 +
        (s - 2) * 1.6 * 4 + 4 / Real.cos (11 * Real.pi / 36) := by
  unfold total_length perimeter_length reinforce_length
  rw [sweep_edge_BA, sweep_edge_OA (by linarith : (0:ℝ) ≤ s), sweep_edge_OB,
    sweep_walkway hs]
  ring

lemma sweepCost_closed (hs : 8 ≤ s) :
    sweepCost s =
      (4.4 + 695 / 320 + 480 / 320 + 3.67 / 10) *
          ((s - 2) * 4 + s * Real.sqrt 2 * 4 + Real.sqrt (s * s + 4) * 4 +
            (s - 2) * 1.6 * 4 + 4 / Real.cos (11 * Real.pi / 36)) +
        27.5 * (s * (s - 2)) := by
  have hvd : ValidDomain (sweepInput s) := validDomain_sweep (by linarith)
  unfold sweepCost
  rw [evaluate_valid hvd]
  show total_cost (sweepInput s) = _
  unfold total_cost metal_cost drill_cost tap_cost mirror_cost
    mirror_surface_area mirror_bolt_cost mirror_bolt_count tap_count drill_count
  rw [sweep_triangle_area hs, sweep_total_length hs,
    show (sweepInput s).unit_cost.frameMetal = 4.4 from rfl,
    show (sweepInput s).unit_cost.mirror = 220 / (8 * 4) from rfl,
    show (sweepInput s).unit_cost.mirrorBolt = 3.67 / 10 from rfl,
    show (sweepInput s).unit_cost.frameThroughHoleDrill = 695 / 160 from rfl,
    show (sweepInput s).unit_cost.frameThroughHoleTap = 480 / 320 from rfl,
    show (sweepInput s).mirrorBoltSpacing = 2 from rfl]
  ring

end Sweep

/-- Claim C6: with all other inputs held at their defaults, as
`squareSideLength` decreases from 16.0 to 8.0 in steps of 0.5 (the sweep mode
of `main`), the resulting `total.cost` decreases strictly monotonically: each
sweep step from `16 − 0.5k` down to `16 − 0.5(k+1)` strictly lowers the
cost. -/
theorem claim_C6 (k : ℕ) (hk : k < 16) :
    sweepCost (16 - 0.5 * ((k : ℝ) + 1)) < sweepCost (16 - 0.5 * (k : ℝ)) := by
  have hk15 : (k : ℝ) ≤ 15 := by exact_mod_cast Nat.lt_succ_iff.1 hk
  have hk0 : (0 : ℝ) ≤ (k : ℝ) := Nat.cast_nonneg k
  set s₁ := 16 - 0.5 * ((k : ℝ) + 1) with hs₁
  set s₂ := 16 - 0.5 * (k : ℝ) with hs₂
  have h1 : 8 ≤ s₁ := by rw [hs₁]; linarith
  have h2 : 8 ≤ s₂ := by rw [hs₂]; linarith
  have h12 : s₁ < s₂ := by rw [hs₁, hs₂]; linarith
  rw [sweepCost_closed h1, sweepCost_closed h2]
  have hsq : Real.sqrt (s₁ * s₁ + 4) < Real.sqrt (s₂ * s₂ + 4) :=
    Real.sqrt_lt_sqrt (by nlinarith) (by nlinarith)
  nlinarith [hsq, sqrt_two_pos,
    mul_pos (sub_pos.2 h12) sqrt_two_pos,
    mul_pos (sub_pos.2 h12) (show (0:ℝ) < s₂ + s₁ - 2 by linarith)]

/-- Witness for claim C6: the first sweep step, from 16.0 to 15.5, strictly
lowers the total cost. -/
theorem claim_C6_witness :
    (0 : ℕ) < 16 ∧
      sweepCost (16 - 0.5 * (((0 : ℕ) : ℝ) + 1)) <
        sweepCost (16 - 0.5 * ((0 : ℕ) : ℝ)) :=
  ⟨by norm_num, claim_C6 0 (by norm_num)⟩

/-- Claim C8: requesting the output twice with unchanged inputs yields
bit-identical `OutputParameters`: the second request returns exactly the value
produced by the first and leaves the model state untouched, and that value is
the pure function `evaluate` of the stored inputs alone. -/
theorem claim_C8 (st : ModelState) (p : InputParameters) :
    (getOutputParameters (getOutputParameters (setInputParameters st p)).2).1 =
        (getOutputParameters (setInputParameters st p)).1 ∧
      (getOutputParameters (getOutputParameters (setInputParameters st p)).2).2 =
        (getOutputParameters (setInputParameters st p)).2 ∧
      (getOutputParameters (setInputParameters st p)).1 = (evaluate p).2 := by
  simp [getOutputParameters, setInputParameters]

end BM11Model
